import Mathlib

/-!
# Verification of the fundas structured-extraction pipeline

Shallow embedding of the schema-validated structured-extraction pipeline and
response cache of the `fundas` repository (`fundas/schema.py`, `fundas/core.py`,
`fundas/cache.py`, `src/fundas/utils/json_parser.py`), together with theorems
settling the specification claims about them.

Conventions of the embedding:
* Python runtime values that can appear in this pipeline are modelled by
  `PyVal`.  Finite Python floats are idealized as exact decimal numbers
  (`PyVal.float m e` denotes `m * 10^e`; IEEE-754 rounding of finite
  values and NaN are outside the model), but float *infinities* and the
  exact overflow-to-infinity boundary of `float()` are modelled, since
  the `OverflowError` of `int(float(...))` on an infinite float escapes
  the `except (ValueError, TypeError)` handler of `Column.convert_value`.
* Exceptions are modelled explicitly: code that can raise returns
  `Except PyErr _`; a Python `try/except` block becomes a `match` on that
  result.
* `time.time()` is modelled by a natural-number clock passed explicitly.
* The SHA-256 fingerprint of a cache key is modelled by the key tuple itself
  (the hash is injective in the model).
* External library calls (`datetime.strptime`, `pandas.to_datetime`,
  the HTTP layer) are parameters of the embedding, universally quantified
  in theorems.
-/

/-- Python values flowing through the extraction pipeline.
`float m e` is the idealized Python float `m * 10 ^ e` (finite values
are kept as exact decimals rather than IEEE-754 doubles); `inf neg` is
a float infinity, which `float("1e999")` and kin produce. -/
inductive PyVal where
  | none
  | bool (b : Bool)
  | int (n : Int)
  | float (m : Int) (e : Int)
  | inf (neg : Bool)
  | str (s : String)
  | list (xs : List PyVal)
  | dict (kvs : List (String × PyVal))
  | date (y m d : Int)
  | datetime (y mo d h mi s : Int)

/-! ## Python string primitives

Models of the `str` methods used by the pipeline, over `List Char` /
`String`. -/

namespace PyStr

/-- Characters stripped by Python `str.strip()`. -/
def isPySpace (c : Char) : Bool :=
  c = ' ' || c = '\t' || c = '\n' || c = '\r' || c = '\x0b' || c = '\x0c'

/-- Python `str.strip()`: remove leading and trailing whitespace. -/
def strip (s : String) : String :=
  ⟨(s.data.dropWhile isPySpace).reverse.dropWhile isPySpace |>.reverse⟩

/-- Whether `pat` occurs at position 0 of `l`. -/
def isPrefixL (pat l : List Char) : Bool :=
  match pat, l with
  | [], _ => true
  | _ :: _, [] => false
  | p :: ps, c :: cs => p = c && isPrefixL ps cs

/-- First index `≥ 0` in `l` where `pat` occurs, or `none`. -/
def findL (pat l : List Char) : Option Nat :=
  match l with
  | [] => if pat = [] then some 0 else Option.none
  | _ :: cs =>
    if isPrefixL pat l then some 0
    else (findL pat cs).map (· + 1)

/-- Python `s.find(pat, start)`: first occurrence index, or `-1`. -/
def find (s pat : String) (start : Nat) : Int :=
  match findL pat.data (s.data.drop start) with
  | some i => (start + i : Nat)
  | Option.none => -1

/-- Python `pat in s`. -/
def contains (s pat : String) : Bool :=
  find s pat 0 ≥ 0

/-- Python slice `s[a:b]` with a non-negative start `a` and a possibly
negative end `b` (a negative `b` counts from the end of the string). -/
def slice (s : String) (a : Nat) (b : Int) : String :=
  let n := s.data.length
  let b' : Nat := if b < 0 then (n + b).toNat else min b.toNat n
  ⟨(s.data.take b').drop a⟩

/-- Python `s.replace(old, new)` for a single-character `old` and empty
`new` (the only form the pipeline uses: stripping `","` and `" "`). -/
def removeChar (s : String) (c : Char) : String :=
  ⟨s.data.filter (· ≠ c)⟩

/-- Python `str.lower()`, restricted to ASCII (the dtype aliases and
boolean literals it is applied to are ASCII). -/
def lower (s : String) : String :=
  ⟨s.data.map fun c => if 'A' ≤ c ∧ c ≤ 'Z' then Char.ofNat (c.toNat + 32) else c⟩

/-- Python `s.split(sep)` for a single-character separator.
`"".split(",") = [""]`, `"a,b".split(",") = ["a", "b"]`. -/
def splitChar (s : String) (sep : Char) : List String :=
  (go sep s.data).map (⟨·⟩)
  where
    go (sep : Char) : List Char → List (List Char)
      | [] => [[]]
      | c :: cs =>
        match go sep cs with
        | [] => [[]]
        | grp :: rest => if c = sep then [] :: grp :: rest else (c :: grp) :: rest

end PyStr

/-! ## `json.loads`

Model of Python's `json.loads` in its default strict mode, specialized to
the value domain `PyVal`: JSON `null`/`true`/`false`/strings/arrays/objects
parse exactly as in Python (objects with duplicate keys follow dict
insertion semantics: last value wins, first position kept); integer
literals parse to `PyVal.int`; literals with a fraction or exponent parse
to the idealized decimal float `PyVal.float m e` (denoting `m * 10^e`).
The non-standard `NaN`/`Infinity` extensions of Python's decoder are
outside the model.  `Option.none` models `json.JSONDecodeError`. -/

namespace PyJson

/-- Whitespace skipped by the JSON decoder. -/
def skipWs (l : List Char) : List Char :=
  l.dropWhile fun c => c = ' ' || c = '\t' || c = '\n' || c = '\r'

def hexVal (c : Char) : Option Nat :=
  if '0' ≤ c ∧ c ≤ '9' then some (c.toNat - '0'.toNat)
  else if 'a' ≤ c ∧ c ≤ 'f' then some (c.toNat - 'a'.toNat + 10)
  else if 'A' ≤ c ∧ c ≤ 'F' then some (c.toNat - 'A'.toNat + 10)
  else Option.none

/-- Body of a JSON string after the opening quote: returns the decoded
string and the input after the closing quote. -/
def parseStringBody (l : List Char) : Option (String × List Char) :=
  go [] l
where
  go (acc : List Char) : List Char → Option (String × List Char)
    | [] => Option.none
    | c :: r =>
      if c = '"' then some (⟨acc.reverse⟩, r)
      else if c = '\\' then
        match r with
        | [] => Option.none
        | e :: r2 =>
          if e = '"' then go ('"' :: acc) r2
          else if e = '\\' then go ('\\' :: acc) r2
          else if e = '/' then go ('/' :: acc) r2
          else if e = 'b' then go ('\x08' :: acc) r2
          else if e = 'f' then go ('\x0c' :: acc) r2
          else if e = 'n' then go ('\n' :: acc) r2
          else if e = 'r' then go ('\r' :: acc) r2
          else if e = 't' then go ('\t' :: acc) r2
          else if e = 'u' then
            match r2 with
            | h1 :: h2 :: h3 :: h4 :: r3 =>
              match hexVal h1, hexVal h2, hexVal h3, hexVal h4 with
              | some a, some b, some c3, some d =>
                go (Char.ofNat (((a * 16 + b) * 16 + c3) * 16 + d) :: acc) r3
              | _, _, _, _ => Option.none
            | _ => Option.none
          else Option.none
      else if c.toNat < 32 then Option.none
      else go (c :: acc) r

def digitsToNat (ds : List Char) : Nat :=
  ds.foldl (fun n c => n * 10 + (c.toNat - '0'.toNat)) 0

/-- JSON number literal.  The JSON grammar's restrictions (no leading
zeros, a fraction/exponent needs at least one digit) surface as the number
ending early, which the caller then rejects as trailing garbage — the same
observable accept/reject behavior as Python's decoder. -/
def parseNumber (l : List Char) : Option (PyVal × List Char) :=
  let (neg, l1) :=
    match l with
    | '-' :: r => (true, r)
    | _ => (false, l)
  match l1 with
  | [] => Option.none
  | c :: r =>
    if c = '0' then
      afterInt neg ['0'] r
    else if c.isDigit then
      afterInt neg (c :: r.takeWhile Char.isDigit) (r.dropWhile Char.isDigit)
    else Option.none
where
  signed (neg : Bool) (n : Nat) : Int := if neg then -(n : Int) else (n : Int)
  afterInt (neg : Bool) (intDs : List Char) (rest : List Char) :
      Option (PyVal × List Char) :=
    let (fracDs, rest1) :=
      match rest with
      | '.' :: r2 =>
        let fds := r2.takeWhile Char.isDigit
        if fds.isEmpty then ([], rest) else (fds, r2.dropWhile Char.isDigit)
      | _ => ([], rest)
    let expPart : Option (Int × List Char) :=
      match rest1 with
      | 'e' :: r3 => readExp r3
      | 'E' :: r3 => readExp r3
      | _ => Option.none
    match expPart with
    | some (ex, rest2) =>
      some (PyVal.float (signed neg (digitsToNat (intDs ++ fracDs)))
        (ex - fracDs.length), rest2)
    | Option.none =>
      if fracDs.isEmpty then
        some (PyVal.int (signed neg (digitsToNat intDs)), rest1)
      else
        some (PyVal.float (signed neg (digitsToNat (intDs ++ fracDs)))
          (-(fracDs.length : Int)), rest1)
  readExp (r3 : List Char) : Option (Int × List Char) :=
    let (eneg, r4) :=
      match r3 with
      | '+' :: r5 => (false, r5)
      | '-' :: r5 => (true, r5)
      | _ => (false, r3)
    let eds := r4.takeWhile Char.isDigit
    if eds.isEmpty then Option.none
    else some (signed eneg (digitsToNat eds), r4.dropWhile Char.isDigit)

/-- Python dict assignment `d[k] = v`: an existing key keeps its position
and gets the new value; a new key is appended. -/
def dictInsert (kvs : List (String × PyVal)) (k : String) (v : PyVal) :
    List (String × PyVal) :=
  match kvs with
  | [] => [(k, v)]
  | (k', v') :: rest =>
    if k' = k then (k', v) :: rest else (k', v') :: dictInsert rest k v

/-- A pending parse job: a value, the items of an array after `[`, or the
members of an object after `{` (with the part already parsed). -/
inductive PTask where
  | value (l : List Char)
  | arrItems (acc : List PyVal) (l : List Char)
  | objItems (acc : List (String × PyVal)) (l : List Char)

/-- The recursive JSON decoder, fueled so that it is structurally
recursive (and hence kernel-evaluable). -/
def parseStep : Nat → PTask → Option (PyVal × List Char)
  | 0, _ => Option.none
  | Nat.succ fuel, PTask.value l =>
    match skipWs l with
    | 'n' :: 'u' :: 'l' :: 'l' :: r => some (PyVal.none, r)
    | 't' :: 'r' :: 'u' :: 'e' :: r => some (PyVal.bool true, r)
    | 'f' :: 'a' :: 'l' :: 's' :: 'e' :: r => some (PyVal.bool false, r)
    | '"' :: r => (parseStringBody r).map fun p => (PyVal.str p.1, p.2)
    | '[' :: r =>
      (match skipWs r with
       | ']' :: r2 => some (PyVal.list [], r2)
       | r' => parseStep fuel (PTask.arrItems [] r'))
    | '{' :: r =>
      (match skipWs r with
       | '}' :: r2 => some (PyVal.dict [], r2)
       | r' => parseStep fuel (PTask.objItems [] r'))
    | l' => parseNumber l'
  | Nat.succ fuel, PTask.arrItems acc l =>
    match parseStep fuel (PTask.value l) with
    | Option.none => Option.none
    | some (v, r) =>
      match skipWs r with
      | ',' :: r2 => parseStep fuel (PTask.arrItems (v :: acc) r2)
      | ']' :: r2 => some (PyVal.list (v :: acc).reverse, r2)
      | _ => Option.none
  | Nat.succ fuel, PTask.objItems acc l =>
    match skipWs l with
    | '"' :: r =>
      (match parseStringBody r with
       | Option.none => Option.none
       | some (k, r1) =>
         match skipWs r1 with
         | ':' :: r2 =>
           (match parseStep fuel (PTask.value r2) with
            | Option.none => Option.none
            | some (v, r3) =>
              match skipWs r3 with
              | ',' :: r4 => parseStep fuel (PTask.objItems (dictInsert acc k v) r4)
              | '}' :: r4 => some (PyVal.dict (dictInsert acc k v), r4)
              | _ => Option.none)
         | _ => Option.none)
    | _ => Option.none

/-- `json.loads`: decode a complete JSON document, rejecting trailing
garbage.  `Option.none` models `json.JSONDecodeError`. -/
def loads (s : String) : Option PyVal :=
  match parseStep (2 * s.length + 4) (PTask.value s.data) with
  | some (v, rest) => if (skipWs rest).isEmpty then some v else Option.none
  | Option.none => Option.none

end PyJson

/-! ## Response Parser and Data Normalizer
(`src/fundas/utils/json_parser.py`) -/

/-- The code-fence slicing step of `parse_json_from_response`
(`json_parser.py` lines 25–35).  The extraction methods of
`OpenRouterClient` in `core.py` inline this identical code verbatim, so
the embedding shares one definition. -/
def extractJsonStr (response_text : String) : String :=
  if PyStr.contains response_text "```json" then
    let json_start : Nat := (PyStr.find response_text "```json" 0).toNat + 7
    let json_end : Int := PyStr.find response_text "```" json_start
    PyStr.strip (PyStr.slice response_text json_start json_end)
  else if PyStr.contains response_text "```" then
    let json_start : Nat := (PyStr.find response_text "```" 0).toNat + 3
    let json_end : Int := PyStr.find response_text "```" json_start
    PyStr.strip (PyStr.slice response_text json_start json_end)
  else
    PyStr.strip response_text

/-- `parse_json_from_response` (`json_parser.py` lines 12–40). -/
def parse_json_from_response (response_text : String) : PyVal :=
  match PyJson.loads (extractJsonStr response_text) with
  | some v => v
  | Option.none => PyVal.dict [("content", PyVal.list [PyVal.str response_text])]

/-- `len(v) if isinstance(v, list) else 1`. -/
def pyLenOrOne : PyVal → Nat
  | PyVal.list xs => xs.length
  | _ => 1

/-- Python `max(iterable, default=d)`. -/
def pyMaxDefault (l : List Nat) (d : Nat) : Nat :=
  match l with
  | [] => d
  | x :: xs => xs.foldl max x

/-- The body of `normalize_data` on a dict (`json_parser.py` lines 56–75):
pad short lists with `None` to the maximum length, broadcast scalars. -/
def normalizePairs (kvs : List (String × PyVal)) : List (String × PyVal) :=
  let max_len := pyMaxDefault (kvs.map fun kv => pyLenOrOne kv.2) 1
  kvs.map fun kv =>
    match kv.2 with
    | PyVal.list xs =>
      if xs.length < max_len then
        (kv.1, PyVal.list (xs ++ List.replicate (max_len - xs.length) PyVal.none))
      else (kv.1, PyVal.list xs)
    | v => (kv.1, PyVal.list (List.replicate max_len v))

/-- `normalize_data` (`json_parser.py` lines 43–75); non-dicts are
returned unchanged.  The inline normalization in
`extract_structured_data` / `..._with_schema` / `..._from_audio`
(`core.py`) is this same computation guarded by `isinstance(data, dict)`. -/
def normalize_data : PyVal → PyVal
  | PyVal.dict kvs => PyVal.dict (normalizePairs kvs)
  | v => v

/-- The inline normalization of `extract_structured_data_from_image`
(`core.py` lines 783–798).  It differs from `normalizePairs` in the
non-list arm: `data[key] = [value] + [None] * (max_length - 1)`. -/
def imageNormalizePairs (kvs : List (String × PyVal)) : List (String × PyVal) :=
  let max_length := pyMaxDefault (kvs.map fun kv => pyLenOrOne kv.2) 1
  kvs.map fun kv =>
    match kv.2 with
    | PyVal.list xs =>
      if xs.length < max_length then
        (kv.1, PyVal.list (xs ++ List.replicate (max_length - xs.length) PyVal.none))
      else kv
    | v => (kv.1, PyVal.list (v :: List.replicate (max_length - 1) PyVal.none))

/-! ## Schema and type coercion (`src/fundas/schema.py`) -/

/-- `DataType` enum (`schema.py` lines 14–24). -/
inductive DataType where
  | STRING
  | INTEGER
  | FLOAT
  | BOOLEAN
  | DATE
  | DATETIME
  | JSON
  | ARRAY
  deriving DecidableEq

/-- A `dtype` argument: either a `DataType` or a string shorthand. -/
inductive DtypeSpec where
  | dt (d : DataType)
  | alias (s : String)

/-- `Column._parse_dtype` (`schema.py` lines 81–115); `Option.none`
models the construction-time `ValueError` on an unknown alias. -/
def parse_dtype : DtypeSpec → Option DataType
  | DtypeSpec.dt d => some d
  | DtypeSpec.alias s =>
    let t := PyStr.lower s
    if t = "str" ∨ t = "string" ∨ t = "text" then some DataType.STRING
    else if t = "int" ∨ t = "integer" then some DataType.INTEGER
    else if t = "float" ∨ t = "number" ∨ t = "double" ∨ t = "decimal" then some DataType.FLOAT
    else if t = "bool" ∨ t = "boolean" then some DataType.BOOLEAN
    else if t = "date" then some DataType.DATE
    else if t = "datetime" ∨ t = "timestamp" then some DataType.DATETIME
    else if t = "json" ∨ t = "object" ∨ t = "dict" then some DataType.JSON
    else if t = "array" ∨ t = "list" then some DataType.ARRAY
    else Option.none

/-- A constructed `Column` (`schema.py` lines 57–79), after dtype
normalization. -/
structure Column where
  name : String
  dtype : DataType
  description : Option String := Option.none
  required : Bool := true
  nullable : Bool := false
  enum_values : Option (List PyVal) := Option.none
  date_format : Option String := Option.none
  array_item_type : Option DataType := Option.none
  default : PyVal := PyVal.none

/-- A parsed `datetime.datetime` as produced by the external date
parsers. -/
structure PyDatetime where
  year : Int
  month : Int
  day : Int
  hour : Int
  minute : Int
  second : Int

/-- The external date-parsing collaborators of `Column.convert_value`:
`datetime.strptime(value, format)` and the `pandas.to_datetime` last
resort (a parse failure — `ValueError` for `strptime`, any exception for
pandas — is `Option.none`). -/
structure Externals where
  strptime : String → String → Option PyDatetime
  pandasParse : String → Option PyDatetime

/-- External parsers that always fail; used to instantiate theorems at
concrete inputs. -/
def noExternals : Externals :=
  { strptime := fun _ _ => Option.none, pandasParse := fun _ => Option.none }

/-- Result of the Python `float()` builtin: a finite decimal or an
infinity. -/
inductive PyFloat where
  | finite (m e : Int)
  | inf (neg : Bool)

/-- Python error values raised by the embedded code.  `overflowError`
is *not* among the kinds caught by the
`except (ValueError, TypeError)` handler of `Column.convert_value`. -/
inductive PyErr where
  | valueError (msg : String)
  | runtimeError (msg : String)
  | attributeError (msg : String)
  | typeError (msg : String)
  | overflowError (msg : String)

/-- The smallest positive real that rounds beyond the largest finite
IEEE-754 double: `(2^54 - 1) * 2^970`.  A correctly-rounded `float()`
overflows to infinity exactly on magnitudes `≥` this bound. -/
def pyFloatOverflowThreshold : Nat := (2 ^ 54 - 1) * 2 ^ 970

/-- Number of decimal digits of `n` (at least one step of fuel per
digit; 1 for `n = 0`). -/
def digitLenAux : Nat → Nat → Nat
  | 0, _ => 0
  | fuel + 1, n => if n < 10 then 1 else digitLenAux fuel (n / 10) + 1

def digitLen (n : Nat) : Nat := digitLenAux (n + 1) n

/-- Whether the decimal `mag * 10^e` overflows a Python float, i.e.
`mag * 10^e ≥ pyFloatOverflowThreshold`.  The threshold has 309
decimal digits, so a value with at most 308 digits before the point
cannot overflow and one with at least 310 always does; only the
boundary decade needs the exact comparison. -/
def decimalOverflows (mag : Nat) (e : Int) : Bool :=
  if mag = 0 then false
  else
    let n : Int := (digitLen mag : Int) + e
    if n ≤ 308 then false
    else if 310 ≤ n then true
    else if 0 ≤ e then pyFloatOverflowThreshold ≤ mag * 10 ^ e.toNat
    else pyFloatOverflowThreshold * 10 ^ (-e).toNat ≤ mag

/-- Package a parsed decimal magnitude as a Python float, overflowing
to infinity past the IEEE-754 range. -/
def mkPyFloat (neg : Bool) (mag : Nat) (e : Int) : PyFloat :=
  if decimalOverflows mag e then PyFloat.inf neg
  else PyFloat.finite (if neg then -(mag : Int) else (mag : Int)) e

/-- Python `float(string)`: optional sign, digits with an optional
fraction and exponent or an `inf`/`infinity` literal, surrounding
whitespace allowed; magnitudes beyond the IEEE-754 range overflow to
infinity (so `float("1e999")` *succeeds* and returns `inf`).
`Option.none` models `ValueError`.  IEEE-754 rounding of in-range
values, `nan` literals and underscore separators are outside the
model. -/
def pyFloatOfString (s : String) : Option PyFloat :=
  let l := (s.data.dropWhile PyStr.isPySpace).reverse.dropWhile PyStr.isPySpace |>.reverse
  let (neg, l1) :=
    match l with
    | '-' :: r => (true, r)
    | '+' :: r => (false, r)
    | _ => (false, l)
  if PyStr.lower ⟨l1⟩ = "inf" ∨ PyStr.lower ⟨l1⟩ = "infinity" then
    some (PyFloat.inf neg)
  else
    let ids := l1.takeWhile Char.isDigit
    let r1 := l1.dropWhile Char.isDigit
    let (fds, r2) :=
      match r1 with
      | '.' :: rr => (rr.takeWhile Char.isDigit, rr.dropWhile Char.isDigit)
      | _ => ([], r1)
    if ids.isEmpty ∧ fds.isEmpty then Option.none
    else
      let mag : Nat := PyJson.digitsToNat (ids ++ fds)
      match r2 with
      | [] => some (mkPyFloat neg mag (-(fds.length : Int)))
      | 'e' :: rr => finishExp neg mag fds.length rr
      | 'E' :: rr => finishExp neg mag fds.length rr
      | _ => Option.none
where
  finishExp (neg : Bool) (mag : Nat) (fl : Nat) (rr : List Char) : Option PyFloat :=
    let (eneg, r4) :=
      match rr with
      | '+' :: r5 => (false, r5)
      | '-' :: r5 => (true, r5)
      | _ => (false, rr)
    let eds := r4.takeWhile Char.isDigit
    if eds.isEmpty then Option.none
    else if (r4.dropWhile Char.isDigit).isEmpty then
      some (mkPyFloat neg mag ((if eneg then -(PyJson.digitsToNat eds : Int)
        else (PyJson.digitsToNat eds : Int)) - fl))
    else Option.none

/-- Python `float(value)` on non-string values: bools and floats
convert; an int beyond the IEEE-754 range raises `OverflowError`
(unlike string parsing, which overflows to infinity); anything else is
a `TypeError`. -/
def pyFloatOfVal : PyVal → Except PyErr PyFloat
  | PyVal.bool b => Except.ok (PyFloat.finite (if b then 1 else 0) 0)
  | PyVal.int n =>
    if decimalOverflows n.natAbs 0 then
      Except.error (PyErr.overflowError "int too large to convert to float")
    else Except.ok (PyFloat.finite n 0)
  | PyVal.float m e => Except.ok (PyFloat.finite m e)
  | PyVal.inf neg => Except.ok (PyFloat.inf neg)
  | _ => Except.error (PyErr.typeError "argument must be a string or a real number")

/-- `int(float)` : truncation toward zero of the decimal `m * 10^e`. -/
def floatTrunc (m : Int) (e : Int) : Int :=
  if 0 ≤ e then m * ((10 ^ e.toNat : Nat) : Int)
  else if 0 ≤ m then ((m.toNat / 10 ^ (-e).toNat : Nat) : Int)
  else -(((-m).toNat / 10 ^ (-e).toNat : Nat) : Int)

/-- Python truthiness `bool(value)` for the value domain. -/
def pyTruthy : PyVal → Bool
  | PyVal.none => false
  | PyVal.bool b => b
  | PyVal.int n => n != 0
  | PyVal.float m _ => m != 0
  | PyVal.inf _ => true
  | PyVal.str s => !s.isEmpty
  | PyVal.list xs => !xs.isEmpty
  | PyVal.dict kvs => !kvs.isEmpty
  | PyVal.date _ _ _ => true
  | PyVal.datetime _ _ _ _ _ _ => true

/-- Zero-padded decimal rendering used by `str(date)` / `str(datetime)`. -/
def padNum (width : Nat) (n : Int) : String :=
  let s := toString n
  if 0 ≤ n ∧ s.length < width then
    (⟨List.replicate (width - s.length) '0'⟩ : String) ++ s
  else s

/-- Decimal rendering of the idealized float `m * 10^e`, approximating
Python's `str(float)` (the exact shortest-repr algorithm of CPython is
outside the model). -/
def renderFloat (m : Int) (e : Int) : String :=
  if 0 ≤ e then
    toString m ++ (⟨List.replicate e.toNat '0'⟩ : String) ++ ".0"
  else
    let p := (-e).toNat
    let ds := toString m.natAbs
    let ds' :=
      if ds.length ≤ p then (⟨List.replicate (p + 1 - ds.length) '0'⟩ : String) ++ ds
      else ds
    (if m < 0 then "-" else "") ++ (⟨ds'.data.take (ds'.length - p)⟩ : String)
      ++ "." ++ (⟨ds'.data.drop (ds'.length - p)⟩ : String)

/-- An ASCII single quote, as used by Python `repr` of strings. -/
def pyQuote : String := String.singleton (Char.ofNat 39)

mutual
/-- Python `repr(value)`, approximated: string escaping inside `repr` and
CPython's float repr are idealized, and dates render in ISO form. -/
def pyRepr : PyVal → String
  | PyVal.none => "None"
  | PyVal.bool true => "True"
  | PyVal.bool false => "False"
  | PyVal.int n => toString n
  | PyVal.float m e => renderFloat m e
  | PyVal.inf neg => if neg then "-inf" else "inf"
  | PyVal.str s => pyQuote ++ s ++ pyQuote
  | PyVal.list xs => "[" ++ pyReprSep xs ++ "]"
  | PyVal.dict kvs => "\x7b" ++ pyReprKvs kvs ++ "\x7d"
  | PyVal.date y m d => padNum 4 y ++ "-" ++ padNum 2 m ++ "-" ++ padNum 2 d
  | PyVal.datetime y mo d h mi s =>
    padNum 4 y ++ "-" ++ padNum 2 mo ++ "-" ++ padNum 2 d ++ " "
      ++ padNum 2 h ++ ":" ++ padNum 2 mi ++ ":" ++ padNum 2 s

def pyReprSep : List PyVal → String
  | [] => ""
  | [x] => pyRepr x
  | x :: y :: xs => pyRepr x ++ ", " ++ pyReprSep (y :: xs)

def pyReprKvs : List (String × PyVal) → String
  | [] => ""
  | [(k, v)] => pyQuote ++ k ++ pyQuote ++ ": " ++ pyRepr v
  | (k, v) :: kv :: kvs =>
    pyQuote ++ k ++ pyQuote ++ ": " ++ pyRepr v ++ ", " ++ pyReprKvs (kv :: kvs)
end

/-- Python `str(value)`. -/
def pyStrOf : PyVal → String
  | PyVal.str s => s
  | v => pyRepr v

/-- The fixed `DATE` format search list (`schema.py` lines 202–209). -/
def dateFormats : List String :=
  ["%Y-%m-%d", "%d/%m/%Y", "%m/%d/%Y", "%Y/%m/%d", "%d-%m-%Y", "%m-%d-%Y"]

/-- The fixed `DATETIME` format search list (`schema.py` lines 230–238). -/
def datetimeFormats : List String :=
  ["%Y-%m-%dT%H:%M:%S", "%Y-%m-%dT%H:%M:%SZ", "%Y-%m-%d %H:%M:%S",
   "%Y-%m-%dT%H:%M:%S.%f", "%Y-%m-%dT%H:%M:%S.%fZ", "%d/%m/%Y %H:%M:%S",
   "%m/%d/%Y %H:%M:%S"]

/-- The `for fmt in [...] try strptime` loop: first successful parse. -/
def tryFormats (ext : Externals) (value : String) : List String → Option PyDatetime
  | [] => Option.none
  | fmt :: fmts =>
    match ext.strptime value fmt with
    | some d => some d
    | Option.none => tryFormats ext value fmts

/-- The body of `Column.convert_value` after the `None` check
(`schema.py` lines 171–281), for one dtype configuration.

Statements the Python `try` block can abort with a *caught*
`ValueError`/`TypeError` are modelled by fallible helpers, and each
such failure arm below returns what the `except (ValueError,
TypeError)` handler returns there, namely the *current* local `value`
— which the INTEGER/FLOAT string arms have already rebound to the
separator-stripped string.  `OverflowError` — raised by `int(float)`
on an infinite float and by `float(int)` on an out-of-range int — is
not caught by that handler and propagates to the caller as an
`Except.error`.

`itemConv` is the element conversion of the transient
`Column("item", self.array_item_type)` of the ARRAY arm.  Since that
transient column always has `array_item_type = None`, the recursion of
the source is at most one level deep and is unrolled here:
`Column.convert_value` below passes the `array_item_type`-free conversion
for `itemConv`. -/
def convertValueCore (ext : Externals) (dtype : DataType) (date_format : Option String)
    (itemConv : Option (PyVal → Except PyErr PyVal)) (value : PyVal) :
    Except PyErr PyVal :=
  match dtype with
  | DataType.STRING => Except.ok (PyVal.str (pyStrOf value))
  | DataType.INTEGER =>
    (match value with
     | PyVal.str s =>
       let s' := PyStr.strip (PyStr.removeChar (PyStr.removeChar s ',') ' ')
       (match pyFloatOfString s' with
        | some (PyFloat.finite m e) => Except.ok (PyVal.int (floatTrunc m e))
        | some (PyFloat.inf _) =>
          Except.error (PyErr.overflowError "cannot convert float infinity to integer")
        | Option.none => Except.ok (PyVal.str s'))
     | v =>
       match pyFloatOfVal v with
       | Except.ok (PyFloat.finite m e) => Except.ok (PyVal.int (floatTrunc m e))
       | Except.ok (PyFloat.inf _) =>
         Except.error (PyErr.overflowError "cannot convert float infinity to integer")
       | Except.error (PyErr.typeError _) => Except.ok v
       | Except.error e => Except.error e)
  | DataType.FLOAT =>
    (match value with
     | PyVal.str s =>
       let s' := PyStr.strip (PyStr.removeChar (PyStr.removeChar s ',') ' ')
       (match pyFloatOfString s' with
        | some (PyFloat.finite m e) => Except.ok (PyVal.float m e)
        | some (PyFloat.inf neg) => Except.ok (PyVal.inf neg)
        | Option.none => Except.ok (PyVal.str s'))
     | v =>
       match pyFloatOfVal v with
       | Except.ok (PyFloat.finite m e) => Except.ok (PyVal.float m e)
       | Except.ok (PyFloat.inf neg) => Except.ok (PyVal.inf neg)
       | Except.error (PyErr.typeError _) => Except.ok v
       | Except.error e => Except.error e)
  | DataType.BOOLEAN =>
    (match value with
     | PyVal.bool b => Except.ok (PyVal.bool b)
     | PyVal.str s =>
       Except.ok (PyVal.bool (PyStr.lower s = "true" || PyStr.lower s = "yes"
         || PyStr.lower s = "1" || PyStr.lower s = "on" || PyStr.lower s = "t"
         || PyStr.lower s = "y"))
     | v => Except.ok (PyVal.bool (pyTruthy v)))
  | DataType.DATE =>
    Except.ok
    (match value with
     -- `isinstance(value, date)` also accepts `datetime` (a subclass),
     -- so a datetime is returned unchanged and the `.date()` truncation
     -- on the next line of the source is unreachable
     | PyVal.date y m d => PyVal.date y m d
     | PyVal.datetime y mo d h mi s => PyVal.datetime y mo d h mi s
     | PyVal.str s =>
       (match date_format with
        | some fmt =>
          (match ext.strptime s fmt with
           | some dt => PyVal.date dt.year dt.month dt.day
           | Option.none => PyVal.str s)
        | Option.none =>
          match tryFormats ext s dateFormats with
          | some dt => PyVal.date dt.year dt.month dt.day
          | Option.none =>
            match ext.pandasParse s with
            | some dt => PyVal.date dt.year dt.month dt.day
            | Option.none => PyVal.str s)
     | v => v)
  | DataType.DATETIME =>
    Except.ok
    (match value with
     | PyVal.datetime y mo d h mi s => PyVal.datetime y mo d h mi s
     | PyVal.str s =>
       (match date_format with
        | some fmt =>
          (match ext.strptime s fmt with
           | some dt => PyVal.datetime dt.year dt.month dt.day dt.hour dt.minute dt.second
           | Option.none => PyVal.str s)
        | Option.none =>
          match tryFormats ext s datetimeFormats with
          | some dt => PyVal.datetime dt.year dt.month dt.day dt.hour dt.minute dt.second
          | Option.none =>
            match ext.pandasParse s with
            | some dt => PyVal.datetime dt.year dt.month dt.day dt.hour dt.minute dt.second
            | Option.none => PyVal.str s)
     | v => v)
  | DataType.JSON =>
    Except.ok
    (match value with
     | PyVal.dict kvs => PyVal.dict kvs
     | PyVal.str s =>
       (match PyJson.loads s with
        | some j => j
        | Option.none => PyVal.str s)
     | v => v)
  | DataType.ARRAY =>
    (match value with
     | PyVal.list xs =>
       (match itemConv with
        | some f => (xs.mapM f).map PyVal.list
        | Option.none => Except.ok (PyVal.list xs))
     | PyVal.str s =>
       Except.ok
       (match PyJson.loads s with
        | some (PyVal.list xs) => PyVal.list xs
        | some _ => PyVal.list [PyVal.str s]
        | Option.none =>
          PyVal.list ((PyStr.splitChar s ',').map fun p => PyVal.str (PyStr.strip p)))
     | v => Except.ok (PyVal.list [v]))

/-- `Column.convert_value` (`schema.py` lines 162–281).  An
`Except.error` is an exception the `except (ValueError, TypeError)`
handler does not catch — in this value domain, the `OverflowError` of
an INTEGER conversion meeting an infinite or out-of-range float. -/
def Column.convert_value (ext : Externals) (col : Column) (value : PyVal) :
    Except PyErr PyVal :=
  match value with
  | PyVal.none =>
    Except.ok
      (if col.nullable then PyVal.none
       else
         match col.default with
         | PyVal.none => PyVal.none
         | d => d)
  | v =>
    convertValueCore ext col.dtype col.date_format
      (col.array_item_type.map fun it v' =>
        match v' with
        | PyVal.none => Except.ok PyVal.none
        | v'' => convertValueCore ext it Option.none Option.none v'')
      v

/-- `Schema` (`schema.py` lines 284–328): name, strict flag and column
list. -/
structure Schema where
  name : String
  strict : Bool
  columns : List Column

/-- The `Schema.__init__` branch for a list of `Column` objects. -/
def Schema.ofColumns (cols : List Column) (name : String) (strict : Bool) : Schema :=
  { name := name, strict := strict, columns := cols }

/-- `Column(name, dtype)` with all other arguments defaulted, as built by
the dict branch of `Schema.__init__`. -/
def mkColumn (n : String) (spec : DtypeSpec) : Option Column :=
  (parse_dtype spec).map fun d => { name := n, dtype := d }

/-- The list comprehension
`[Column(name, dtype) for name, dtype in columns.items()]`
(`schema.py` line 323); `Option.none` models the construction-time
`ValueError` from an unknown dtype alias. -/
def buildColumns : List (String × DtypeSpec) → Option (List Column)
  | [] => some []
  | kv :: rest =>
    match mkColumn kv.1 kv.2, buildColumns rest with
    | some c, some cs => some (c :: cs)
    | _, _ => Option.none

/-- The `Schema.__init__` branch for a `{name: dtype}` mapping.  The
input list models the Python dict's items, so its keys are unique in
any state reachable in Python. -/
def Schema.ofDict (m : List (String × DtypeSpec)) (name : String) (strict : Bool) :
    Option Schema :=
  (buildColumns m).map fun cols =>
    { name := name, strict := strict, columns := cols }

/-- `Schema.get_column_names`. -/
def Schema.get_column_names (s : Schema) : List String :=
  s.columns.map (·.name)

/-- `Schema.get_column`: lookup in `_column_map`, the dict comprehension
`{col.name: col for col in self.columns}` — so the *last* column with a
given name wins. -/
def Schema.get_column (s : Schema) (n : String) : Option Column :=
  s.columns.reverse.find? fun c => c.name == n

/-- One column of `Schema.convert_data`:
`[col.convert_value(v) for v in values]`.  Iterating a Python value
yields its elements for a list, its characters for a string, its keys for
a dict, and a `TypeError` otherwise; an exception escaping an element
conversion propagates. -/
def convertColValues (ext : Externals) (col : Column) (values : PyVal) :
    Except PyErr PyVal :=
  match values with
  | PyVal.list xs => (xs.mapM (col.convert_value ext)).map PyVal.list
  | PyVal.str s =>
    (s.data.mapM fun c =>
      col.convert_value ext (PyVal.str (String.singleton c))).map PyVal.list
  | PyVal.dict kvs =>
    (kvs.mapM fun kv => col.convert_value ext (PyVal.str kv.1)).map PyVal.list
  | _ => Except.error (PyErr.typeError "object is not iterable")

/-- `Schema.convert_data` (`schema.py` lines 374–387): coerce each value
list whose key names a schema column, pass other keys through.  A
non-dict argument raises `AttributeError` at `data.items()`. -/
def Schema.convert_data (ext : Externals) (s : Schema) (data : PyVal) :
    Except PyErr PyVal :=
  match data with
  | PyVal.dict kvs =>
    (kvs.mapM fun (kv : String × PyVal) =>
      match s.get_column kv.1 with
      | some col => (convertColValues ext col kv.2).map fun v => (kv.1, v)
      | Option.none => Except.ok kv).map PyVal.dict
  | _ => Except.error (PyErr.attributeError "object has no attribute items")

/-! ## Extraction Cache (`src/fundas/cache.py`)

The SHA-256 fingerprint of `APICache._generate_key` is modelled by the
canonical key tuple itself (the hash is collision-free in the model), and
the one-file-per-fingerprint backing store by an association list from
keys to persisted records.  `time.time()` is a natural-number clock
passed explicitly.  File I/O succeeds in the model (a write failure is
swallowed by `set` in the source, so a model with failing writes only
removes entries; claims about a writable store are unaffected). -/

/-- The canonical content of `key_data` in `APICache._generate_key`. -/
structure CacheKey where
  content : String
  prompt : String
  model : String
  columns : Option (List String)
  deriving DecidableEq

/-- A persisted cache file as read back by `json.load`:
either a JSON object (with `timestamp` defaulting to `0` and `data` to
Python `None` when absent, per `dict.get`), or unparseable. -/
inductive CacheRecord where
  | parsed (timestamp : Nat) (data : PyVal)
  | corrupt

/-- The backing store: one record per fingerprint. -/
def CacheStore := List (CacheKey × CacheRecord)

def lookupRecord (st : CacheStore) (k : CacheKey) : Option CacheRecord :=
  match st with
  | [] => Option.none
  | (k', r) :: rest => if k' = k then some r else lookupRecord rest k

def removeRecord (st : CacheStore) (k : CacheKey) : CacheStore :=
  match st with
  | [] => []
  | (k', r) :: rest => if k' = k then removeRecord rest k else (k', r) :: removeRecord rest k

def writeRecord (st : CacheStore) (k : CacheKey) (r : CacheRecord) : CacheStore :=
  (k, r) :: removeRecord st k

/-- `APICache` runtime state: TTL, enabled flag, backing store. -/
structure APICache where
  ttl : Nat
  enabled : Bool
  store : CacheStore

/-- `APICache.get` (`cache.py` lines 70–109).  Returns the Python return
value (`PyVal.none` models the `None` of a miss) together with the store
left behind: an expired entry is unlinked; a corrupt one is left in
place.  The `except (json.JSONDecodeError, IOError)` handler makes the
read total. -/
def APICache.get (c : APICache) (now : Nat) (content prompt model : String)
    (columns : Option (List String)) : PyVal × APICache :=
  if !c.enabled then (PyVal.none, c)
  else
    let k : CacheKey := ⟨content, prompt, model, columns⟩
    match lookupRecord c.store k with
    | Option.none => (PyVal.none, c)
    | some CacheRecord.corrupt => (PyVal.none, c)
    | some (CacheRecord.parsed ts data) =>
      if now - ts > c.ttl then
        (PyVal.none, { c with store := removeRecord c.store k })
      else (data, c)

/-- `APICache.set` (`cache.py` lines 111–142): persist
`{"timestamp": now, "data": data}` under the fingerprint. -/
def APICache.set (c : APICache) (now : Nat) (content prompt model : String)
    (data : PyVal) (columns : Option (List String)) : APICache :=
  if !c.enabled then c
  else
    { c with
      store := writeRecord c.store ⟨content, prompt, model, columns⟩
        (CacheRecord.parsed now data) }

/-! ## Retry loop of `OpenRouterClient.process_content`
(`src/fundas/core.py` lines 118–147)

One attempt of the `requests.post` / `raise_for_status` pair is an
abstract outcome.  `respTruthy` models the truthiness test `e.response`
of the source (`False` both when the exception carries no response and
when the response object itself is falsy); `msg` models `str(e)`. -/

inductive AttemptOutcome where
  | success (resp : PyVal)
  | httpError (status : Nat) (respTruthy : Bool) (msg : String)
  | requestError (msg : String)

/-- The observable run of `process_content`: its result, the argument of
each `time.sleep` in order, and how many attempts were made. -/
structure RetryRun where
  result : Except PyErr PyVal
  sleeps : List Nat
  attempts : Nat

/-- `str(last_exception)` in the final `RuntimeError` message. -/
def lastErrStr : Option String → String
  | Option.none => "None"
  | some m => m

/-- The aggregated failure raised after the loop. -/
def retryFailMsg (maxRetries : Nat) (lastErr : Option String) : String :=
  "Error communicating with OpenRouter API after " ++ toString maxRetries
    ++ " attempts: " ++ lastErrStr lastErr

/-- The `for attempt in range(self.max_retries)` loop of
`process_content`, with `remaining = max_retries - attempt` iterations
left and `attempt` the current 0-based index. -/
def retryLoop (model : String) (maxRetries retryDelay : Nat)
    (outcomes : Nat → AttemptOutcome) (attempt remaining : Nat)
    (lastErr : Option String) : RetryRun :=
  match remaining with
  | 0 => ⟨Except.error (PyErr.runtimeError (retryFailMsg maxRetries lastErr)), [], 0⟩
  | Nat.succ rem =>
    let continueWith (msg : String) : RetryRun :=
      let rest := retryLoop model maxRetries retryDelay outcomes (attempt + 1) rem (some msg)
      { rest with
        sleeps := (if attempt < maxRetries - 1 then [retryDelay * (attempt + 1)] else [])
          ++ rest.sleeps
        attempts := rest.attempts + 1 }
    match outcomes attempt with
    | AttemptOutcome.success resp => ⟨Except.ok resp, [], 1⟩
    | AttemptOutcome.httpError status respTruthy msg =>
      if respTruthy && status == 400 then
        ⟨Except.error (PyErr.valueError ("Invalid request: " ++ msg)), [], 1⟩
      else if respTruthy && status == 401 then
        ⟨Except.error (PyErr.valueError "Invalid API key"), [], 1⟩
      else if respTruthy && status == 404 then
        ⟨Except.error (PyErr.valueError ("Model not found: " ++ model)), [], 1⟩
      else continueWith msg
    | AttemptOutcome.requestError msg => continueWith msg

/-- `process_content` retry behavior (`core.py` lines 118–147),
abstracted over the per-attempt HTTP outcomes. -/
def process_content (model : String) (maxRetries retryDelay : Nat)
    (outcomes : Nat → AttemptOutcome) : RetryRun :=
  retryLoop model maxRetries retryDelay outcomes 0 maxRetries Option.none

/-! ## Extraction orchestration (`src/fundas/core.py`)

The extraction methods are embedded from the cache check onward,
abstracted over the HTTP round trip: `respText` is
`response["choices"][0]["message"]["content"]` when the upstream
response has a non-empty `choices` list (`some text`), and `Option.none`
when `choices` is absent or empty.  Malformed response shapes (a
non-string completion, a `choices` entry without `message`) raise in
Python and are outside the claims about completion text. -/

/-- The `OpenRouterClient` fields the extraction paths read. -/
structure Client where
  model : String
  use_cache : Bool
  cache : Option APICache

/-- Observable outcome of one extraction call: the returned value, the
cache left behind, and whether the upstream API was contacted. -/
structure ExtractOutcome where
  result : PyVal
  cache : Option APICache
  apiCalled : Bool

/-- `if self.use_cache and self.cache: self.cache.set(...)`. -/
def maybeSet (cl : Client) (now : Nat) (content prompt : String)
    (columns : Option (List String)) (cacheSt : Option APICache) (data : PyVal) :
    Option APICache :=
  if cl.use_cache then
    cacheSt.map fun c => c.set now content prompt cl.model data columns
  else cacheSt

/-- The degenerate result when JSON parsing of the completion fails. -/
def fallbackResult (text : String) : PyVal :=
  PyVal.dict [("content", PyVal.list [PyVal.str text])]

/-- The result when the response carries no usable completion. -/
def noResponseResult : PyVal :=
  PyVal.dict [("content", PyVal.list [PyVal.str "No response from API"])]

/-- The cache-miss tail of `extract_structured_data`
(`core.py` lines 247–329): call upstream, slice out the JSON payload,
parse, normalize if a dict, cache, return; on parse failure cache and
return the fallback. -/
def extractMissPath (cl : Client) (now : Nat) (content prompt : String)
    (columns : Option (List String)) (respText : Option String)
    (cacheSt : Option APICache) : ExtractOutcome :=
  match respText with
  | Option.none => ⟨noResponseResult, cacheSt, true⟩
  | some text =>
    match PyJson.loads (extractJsonStr text) with
    | some data =>
      let data' := normalize_data data
      ⟨data', maybeSet cl now content prompt columns cacheSt data', true⟩
    | Option.none =>
      ⟨fallbackResult text,
        maybeSet cl now content prompt columns cacheSt (fallbackResult text), true⟩

/-- `extract_structured_data` (`core.py` lines 223–329). -/
def extract_structured_data (cl : Client) (now : Nat) (content prompt : String)
    (columns : Option (List String)) (respText : Option String) : ExtractOutcome :=
  match cl.use_cache, cl.cache with
  | true, some c =>
    let got := c.get now content prompt cl.model columns
    (match got.1 with
     | PyVal.none =>
       extractMissPath { cl with cache := some got.2 } now content prompt columns
         respText (some got.2)
     | v => ⟨v, some got.2, false⟩)
  | _, _ => extractMissPath cl now content prompt columns respText cl.cache

/-- The cache-miss tail of `extract_structured_data_with_schema`
(`core.py` lines 381–483).  The schema coercion `schema.convert_data`
runs after the pre-coercion data has been cached; its possible
`AttributeError`/`TypeError` on non-dict data propagates (the
`Except.error` result). -/
def extractSchemaMissPath (ext : Externals) (cl : Client) (now : Nat)
    (content prompt : String) (schema : Schema)
    (cache_key_columns : List String) (respText : Option String)
    (cacheSt : Option APICache) : Except PyErr ExtractOutcome :=
  match respText with
  | Option.none => Except.ok ⟨noResponseResult, cacheSt, true⟩
  | some text =>
    match PyJson.loads (extractJsonStr text) with
    | some data =>
      let data' := normalize_data data
      let cacheSt' := maybeSet cl now content prompt (some cache_key_columns) cacheSt data'
      (schema.convert_data ext data').map fun conv => ⟨conv, cacheSt', true⟩
    | Option.none =>
      Except.ok ⟨fallbackResult text,
        maybeSet cl now content prompt (some cache_key_columns) cacheSt
          (fallbackResult text), true⟩

/-- `extract_structured_data_with_schema` (`core.py` lines 331–483):
the cache key gets a `__schema:<name>` marker appended to the column
names, and a cache hit re-applies `schema.convert_data` to the cached
pre-coercion payload. -/
def extract_structured_data_with_schema (ext : Externals) (cl : Client) (now : Nat)
    (content prompt : String) (schema : Schema) (respText : Option String) :
    Except PyErr ExtractOutcome :=
  let cache_key_columns := schema.get_column_names ++ ["__schema:" ++ schema.name]
  match cl.use_cache, cl.cache with
  | true, some c =>
    let got := c.get now content prompt cl.model (some cache_key_columns)
    (match got.1 with
     | PyVal.none =>
       extractSchemaMissPath ext { cl with cache := some got.2 } now content prompt
         schema cache_key_columns respText (some got.2)
     | v => (schema.convert_data ext v).map fun r => ⟨r, some got.2, false⟩)
  | _, _ =>
    extractSchemaMissPath ext cl now content prompt schema cache_key_columns
      respText cl.cache

/-! ## Predicates and spec-side formalizations used by the claims -/

/-- The Extraction Result invariant of the spec: a mapping in which
every value is a list and all value lists have identical length. -/
def isTableB : PyVal → Bool
  | PyVal.dict kvs =>
    (match kvs with
     | [] => true
     | (_, v0) :: rest =>
       match v0 with
       | PyVal.list xs =>
         rest.all fun kv =>
           match kv.2 with
           | PyVal.list ys => ys.length == xs.length
           | _ => false
       | _ => false)
  | _ => false

/-- The Response Parser payload selection exactly as the claim words
it: the payload between a ` ```json ` fence (or, failing that, a bare
` ``` ` fence) and the *next* ` ``` ` fence, else the whole trimmed
text.  Written from the claim, to be compared with `extractJsonStr`
from the source. -/
def claimedPayload (text : String) : String :=
  if 0 ≤ PyStr.find text "```json" 0
      ∧ 0 ≤ PyStr.find text "```" ((PyStr.find text "```json" 0).toNat + 7) then
    PyStr.strip (PyStr.slice text ((PyStr.find text "```json" 0).toNat + 7)
      (PyStr.find text "```" ((PyStr.find text "```json" 0).toNat + 7)))
  else if PyStr.find text "```json" 0 < 0 ∧ 0 ≤ PyStr.find text "```" 0
      ∧ 0 ≤ PyStr.find text "```" ((PyStr.find text "```" 0).toNat + 3) then
    PyStr.strip (PyStr.slice text ((PyStr.find text "```" 0).toNat + 3)
      (PyStr.find text "```" ((PyStr.find text "```" 0).toNat + 3)))
  else PyStr.strip text

/-- The payload selection as amended: like `claimedPayload`, but when
an opening fence has no subsequent closing fence the payload is the
text from just after the opening marker up to but excluding the final
character (Python's `[start:-1]` slice with `find` returning `-1`),
stripped. -/
def claimedPayloadAmended (text : String) : String :=
  if 0 ≤ PyStr.find text "```json" 0 then
    if 0 ≤ PyStr.find text "```" ((PyStr.find text "```json" 0).toNat + 7) then
      PyStr.strip (PyStr.slice text ((PyStr.find text "```json" 0).toNat + 7)
        (PyStr.find text "```" ((PyStr.find text "```json" 0).toNat + 7)))
    else
      PyStr.strip (PyStr.slice text ((PyStr.find text "```json" 0).toNat + 7) (-1))
  else if 0 ≤ PyStr.find text "```" 0 then
    if 0 ≤ PyStr.find text "```" ((PyStr.find text "```" 0).toNat + 3) then
      PyStr.strip (PyStr.slice text ((PyStr.find text "```" 0).toNat + 3)
        (PyStr.find text "```" ((PyStr.find text "```" 0).toNat + 3)))
    else
      PyStr.strip (PyStr.slice text ((PyStr.find text "```" 0).toNat + 3) (-1))
  else PyStr.strip text

/-- Whether one attempt outcome is handled as transient by the retry
loop (retried), as opposed to returning or raising immediately. -/
def isTransient : AttemptOutcome → Bool
  | AttemptOutcome.success _ => false
  | AttemptOutcome.httpError st tru _ =>
    !(tru && st == 400) && !(tru && st == 401) && !(tru && st == 404)
  | AttemptOutcome.requestError _ => true

/-- `str(e)` of a failed attempt's exception. -/
def outcomeMsg : AttemptOutcome → String
  | AttemptOutcome.success _ => ""
  | AttemptOutcome.httpError _ _ m => m
  | AttemptOutcome.requestError m => m

/-- An HTTP error outcome as the `requests` library actually delivers
it: `raise_for_status` attaches the `Response` object to the
`HTTPError`, and `Response.__bool__` is `Response.ok`, which is
`False` exactly when `status_code >= 400` — so the truthiness guards
`e.response and e.response.status_code == ...` of `process_content`
see a falsy response for every status that can reach them. -/
def requestsHttpError (status : Nat) (msg : String) : AttemptOutcome :=
  AttemptOutcome.httpError status (decide (status < 400)) msg

/-! ## Shared helper lemmas -/

/-- `s.replace(",", "").replace(" ", "").strip()`: the preprocessed form
of a string input in the INTEGER/FLOAT arms of `convert_value`. -/
def stripSeparators (s : String) : String :=
  PyStr.strip (PyStr.removeChar (PyStr.removeChar s ',') ' ')

theorem lookupRecord_writeRecord (st : CacheStore) (k : CacheKey) (r : CacheRecord) :
    lookupRecord (writeRecord st k r) k = some r := by
  simp [writeRecord, lookupRecord]

theorem lookupRecord_removeRecord (st : CacheStore) (k : CacheKey) :
    lookupRecord (removeRecord st k) k = Option.none := by
  induction st with
  | nil => rfl
  | cons hd tl ih =>
    by_cases h : hd.1 = k
    · simpa [removeRecord, h] using ih
    · simpa [removeRecord, lookupRecord, h] using ih

/-! ## Claims -/

/-- C2, counterexample: both halves of the claim fail on an INTEGER
column.  `convert_value` of the non-numeric string `"a,b"` returns
the separator-stripped string `"ab"`, not the original raw value
`"a,b"` — the local `value` was rebound before the failing parse and
the `except` handler returns that rebound value.  And `convert_value`
of `"1e999"` *raises*: `float("1e999")` succeeds as infinity, so
`int(...)` raises `OverflowError`, which
`except (ValueError, TypeError)` does not catch. -/
theorem C2_counterexample :
    (Column.convert_value noExternals { name := "x", dtype := DataType.INTEGER }
        (PyVal.str "a,b") = Except.ok (PyVal.str "ab")
      ∧ Except.ok (PyVal.str "ab") ≠ (Except.ok (PyVal.str "a,b") : Except PyErr PyVal))
    ∧ Column.convert_value noExternals { name := "x", dtype := DataType.INTEGER }
        (PyVal.str "1e999")
      = Except.error (PyErr.overflowError "cannot convert float infinity to integer") := by
  refine ⟨⟨rfl, fun h => ?_⟩, rfl⟩
  injection h with h'
  injection h' with h''
  exact absurd h'' (by decide)

/-- C2, amended: the `except (ValueError, TypeError)` handler catches
only those two kinds, and what it returns is the value as already
preprocessed at the failure point: for an INTEGER or FLOAT column
given a string whose separator-stripped form does not parse as a
number, the comma/space-stripped string is returned (not the original
raw value); for a JSON column given an unparseable string, the
original string is returned unchanged.  `OverflowError` is *not*
caught: an INTEGER conversion of a string whose float parse overflows
to infinity raises to the caller. -/
theorem C2_amended (ext : Externals) (col : Column) (s : String) :
    ((col.dtype = DataType.INTEGER ∨ col.dtype = DataType.FLOAT) →
      pyFloatOfString (stripSeparators s) = Option.none →
      col.convert_value ext (PyVal.str s) = Except.ok (PyVal.str (stripSeparators s)))
    ∧ (col.dtype = DataType.JSON → PyJson.loads s = Option.none →
      col.convert_value ext (PyVal.str s) = Except.ok (PyVal.str s))
    ∧ (∀ neg, col.dtype = DataType.INTEGER →
      pyFloatOfString (stripSeparators s) = some (PyFloat.inf neg) →
      col.convert_value ext (PyVal.str s)
        = Except.error (PyErr.overflowError "cannot convert float infinity to integer")) := by
  refine ⟨?_, ?_, ?_⟩
  · rintro (hdt | hdt) hf <;>
      simp [Column.convert_value, convertValueCore, hdt, stripSeparators] at hf ⊢ <;>
      simp [hf]
  · intro hdt hl
    simp [Column.convert_value, convertValueCore, hdt, hl]
  · intro neg hdt hf
    simp [Column.convert_value, convertValueCore, hdt, stripSeparators] at hf ⊢
    simp [hf]

/-- C2, witness for the amended theorem: the caught-failure case at
`"a,b"` and the uncaught `OverflowError` case at `"1e999"`. -/
theorem C2_amended_witness :
    Column.convert_value noExternals { name := "x", dtype := DataType.INTEGER }
        (PyVal.str "a,b") = Except.ok (PyVal.str "ab")
    ∧ Column.convert_value noExternals { name := "x", dtype := DataType.INTEGER }
        (PyVal.str "1e999")
      = Except.error (PyErr.overflowError "cannot convert float infinity to integer") :=
  ⟨(C2_amended noExternals { name := "x", dtype := DataType.INTEGER } "a,b").1
      (Or.inl rfl) rfl,
    (C2_amended noExternals { name := "x", dtype := DataType.INTEGER } "1e999").2.2
      false rfl rfl⟩

/-- C5, counterexample: a corrupt backing record is *not* removed by
`APICache.get` — the read returns `None` but leaves the store
untouched (only the expired arm unlinks; the `except` arm merely
returns).  This refutes the claim that reading a corrupt entry
removes the backing record. -/
theorem C5_counterexample :
    (APICache.get
        { ttl := 100, enabled := true,
          store := [(⟨"c", "p", "m", Option.none⟩, CacheRecord.corrupt)] }
        50 "c" "p" "m" Option.none).1 = PyVal.none
    ∧ (APICache.get
        { ttl := 100, enabled := true,
          store := [(⟨"c", "p", "m", Option.none⟩, CacheRecord.corrupt)] }
        50 "c" "p" "m" Option.none).2.store
      = [(⟨"c", "p", "m", Option.none⟩, CacheRecord.corrupt)] := by
  exact ⟨rfl, rfl⟩

/-- C5, amended: on an enabled cache, `get` of an *expired* entry
returns `None` and removes the backing record, while `get` of a
*corrupt* entry returns `None` and leaves the backing record in place
(it is removed only by `clear_expired`); neither case raises. -/
theorem C5_amended (c : APICache) (now : Nat) (content prompt model : String)
    (columns : Option (List String)) (hen : c.enabled = true) :
    (lookupRecord c.store ⟨content, prompt, model, columns⟩ = some CacheRecord.corrupt →
      APICache.get c now content prompt model columns = (PyVal.none, c))
    ∧ (∀ ts data,
        lookupRecord c.store ⟨content, prompt, model, columns⟩
          = some (CacheRecord.parsed ts data) →
        now - ts > c.ttl →
        APICache.get c now content prompt model columns
          = (PyVal.none,
             { c with store := removeRecord c.store ⟨content, prompt, model, columns⟩ })
        ∧ lookupRecord (APICache.get c now content prompt model columns).2.store
            ⟨content, prompt, model, columns⟩ = Option.none) := by
  constructor
  · intro hcor
    simp [APICache.get, hen, hcor]
  · intro ts data hrec hexp
    have hget : APICache.get c now content prompt model columns
        = (PyVal.none,
           { c with store := removeRecord c.store ⟨content, prompt, model, columns⟩ }) := by
      simp [APICache.get, hen, hrec, hexp]
    exact ⟨hget, by rw [hget]; exact lookupRecord_removeRecord _ _⟩

/-- C5, witness: the amended theorem applied to a concrete expired
entry — the record is removed and the read misses. -/
theorem C5_amended_witness :
    APICache.get
        { ttl := 10, enabled := true,
          store := [(⟨"c", "p", "m", Option.none⟩, CacheRecord.parsed 0
            (PyVal.dict [("a", PyVal.list [PyVal.int 1])]))] }
        100 "c" "p" "m" Option.none
      = (PyVal.none, { ttl := 10, enabled := true, store := [] }) :=
  ((C5_amended
      { ttl := 10, enabled := true,
        store := [(⟨"c", "p", "m", Option.none⟩, CacheRecord.parsed 0
          (PyVal.dict [("a", PyVal.list [PyVal.int 1])]))] }
      100 "c" "p" "m" Option.none rfl).2 0
    (PyVal.dict [("a", PyVal.list [PyVal.int 1])]) rfl (by decide)).1

/-- C6: on an enabled cache with a writable backing store, `set`
followed by `get` with the identical `(content, prompt, model,
columns)` key returns exactly the data that was set, provided the TTL
has not elapsed between the two calls. -/
theorem C6_set_get_roundtrip (c : APICache) (t1 t2 : Nat)
    (content prompt model : String) (data : PyVal) (columns : Option (List String))
    (hen : c.enabled = true) (hfresh : t2 - t1 ≤ c.ttl) :
    ((c.set t1 content prompt model data columns).get t2 content prompt model columns).1
      = data := by
  have hlookup := lookupRecord_writeRecord c.store ⟨content, prompt, model, columns⟩
    (CacheRecord.parsed t1 data)
  simp [APICache.set, APICache.get, hen, hlookup, Nat.not_lt.mpr hfresh]

/-- C6, witness at a concrete key, payload and pair of timestamps. -/
theorem C6_set_get_roundtrip_witness :
    ((APICache.set { ttl := 10, enabled := true, store := [] } 0 "c" "p" "m"
        (PyVal.dict [("a", PyVal.list [PyVal.int 1])]) Option.none).get
      5 "c" "p" "m" Option.none).1
      = PyVal.dict [("a", PyVal.list [PyVal.int 1])] :=
  C6_set_get_roundtrip { ttl := 10, enabled := true, store := [] } 0 5 "c" "p" "m"
    (PyVal.dict [("a", PyVal.list [PyVal.int 1])]) Option.none rfl (by decide)

/-- C4, counterexample: on `{"a": [1, 2], "b": "x"}` the inline
normalization of `extract_structured_data_from_image` pads the scalar
column `"b"` as `["x", None]`, while `normalize_data` broadcasts it as
`["x", "x"]` — the two normalizations are not the same function. -/
theorem C4_counterexample :
    imageNormalizePairs
        [("a", PyVal.list [PyVal.int 1, PyVal.int 2]), ("b", PyVal.str "x")]
      = [("a", PyVal.list [PyVal.int 1, PyVal.int 2]),
         ("b", PyVal.list [PyVal.str "x", PyVal.none])]
    ∧ normalizePairs
        [("a", PyVal.list [PyVal.int 1, PyVal.int 2]), ("b", PyVal.str "x")]
      = [("a", PyVal.list [PyVal.int 1, PyVal.int 2]),
         ("b", PyVal.list [PyVal.str "x", PyVal.str "x"])]
    ∧ imageNormalizePairs
        [("a", PyVal.list [PyVal.int 1, PyVal.int 2]), ("b", PyVal.str "x")]
      ≠ normalizePairs
        [("a", PyVal.list [PyVal.int 1, PyVal.int 2]), ("b", PyVal.str "x")] := by
  refine ⟨rfl, rfl, fun h => ?_⟩
  have h2 : [("a", PyVal.list [PyVal.int 1, PyVal.int 2]),
        ("b", PyVal.list [PyVal.str "x", PyVal.none])]
      = [("a", PyVal.list [PyVal.int 1, PyVal.int 2]),
         ("b", PyVal.list [PyVal.str "x", PyVal.str "x"])] := h
  simp at h2

/-- C4, amended: the image path's inline normalization replaces a
non-list value `v` by `[v]` padded with `None` to the common length
rather than broadcasting `v`; it computes the same result as
`normalize_data` when every value of the parsed dict is a list, and
also whenever the computed `max_len` is `1` (in particular on an
all-scalar dict). -/
theorem C4_amended (kvs : List (String × PyVal)) :
    ((∀ kv ∈ kvs, ∃ xs, kv.2 = PyVal.list xs) →
      imageNormalizePairs kvs = normalizePairs kvs)
    ∧ (pyMaxDefault (kvs.map fun kv => pyLenOrOne kv.2) 1 = 1 →
      imageNormalizePairs kvs = normalizePairs kvs) := by
  constructor
  · intro hall
    simp only [imageNormalizePairs, normalizePairs]
    refine List.map_congr_left fun kv hkv => ?_
    obtain ⟨xs, hxs⟩ := hall kv hkv
    rcases kv with ⟨k, v⟩
    simp only at hxs
    subst hxs
    rfl
  · intro hmax
    simp only [imageNormalizePairs, normalizePairs, hmax]
    refine List.map_congr_left fun kv _ => ?_
    rcases kv with ⟨k, v⟩
    cases v <;> rfl

/-- C4, witness: the amended theorem applied to an all-list dict. -/
theorem C4_amended_witness :
    imageNormalizePairs [("a", PyVal.list [PyVal.int 1]), ("b", PyVal.list [])]
      = normalizePairs [("a", PyVal.list [PyVal.int 1]), ("b", PyVal.list [])] :=
  (C4_amended [("a", PyVal.list [PyVal.int 1]), ("b", PyVal.list [])]).1
    (by intro kv hkv
        simp only [List.mem_cons, List.mem_singleton, List.not_mem_nil, or_false] at hkv
        rcases hkv with rfl | rfl
        · exact ⟨[PyVal.int 1], rfl⟩
        · exact ⟨[], rfl⟩)

/-- C8, counterexample: a `Schema` built from a *list* of `Column`
objects does not deduplicate names — `get_column_names` can repeat a
name, and `get_column` returns the last column with that name.  This
refutes the claim that column names are unique however the schema was
constructed. -/
theorem C8_counterexample :
    (Schema.ofColumns
        [{ name := "a", dtype := DataType.STRING },
         { name := "a", dtype := DataType.INTEGER }] "s" true).get_column_names
      = ["a", "a"]
    ∧ ¬ (["a", "a"] : List String).Nodup
    ∧ (Schema.ofColumns
        [{ name := "a", dtype := DataType.STRING },
         { name := "a", dtype := DataType.INTEGER }] "s" true).get_column "a"
      = some { name := "a", dtype := DataType.INTEGER } :=
  ⟨rfl, by decide, rfl⟩

theorem mkColumn_name (n : String) (spec : DtypeSpec) (col : Column)
    (h : mkColumn n spec = some col) : col.name = n := by
  unfold mkColumn at h
  cases hp : parse_dtype spec with
  | none => rw [hp] at h; cases h
  | some d => rw [hp] at h; cases h; rfl

theorem buildColumns_names (m : List (String × DtypeSpec)) (cols : List Column)
    (h : buildColumns m = some cols) : cols.map (·.name) = m.map Prod.fst := by
  induction m generalizing cols with
  | nil => cases h; rfl
  | cons kv rest ih =>
    unfold buildColumns at h
    cases hc : mkColumn kv.1 kv.2 with
    | none => rw [hc] at h; cases h
    | some c =>
      cases hcs : buildColumns rest with
      | none => rw [hc, hcs] at h; cases h
      | some cs =>
        rw [hc, hcs] at h
        cases h
        simp only [List.map_cons]
        rw [mkColumn_name kv.1 kv.2 c hc, ih cs hcs]

theorem find?_reverse_buildColumns (m : List (String × DtypeSpec)) (cols : List Column)
    (hnodup : (m.map Prod.fst).Nodup) (h : buildColumns m = some cols) :
    ∀ kv ∈ m, (cols.reverse.find? fun c => c.name == kv.1) = mkColumn kv.1 kv.2 := by
  induction m generalizing cols with
  | nil => intro kv hkv; cases hkv
  | cons hd rest ih =>
    unfold buildColumns at h
    cases hc : mkColumn hd.1 hd.2 with
    | none => rw [hc] at h; cases h
    | some c =>
      cases hcs : buildColumns rest with
      | none => rw [hc, hcs] at h; cases h
      | some cs =>
        rw [hc, hcs] at h
        cases h
        have hcname := mkColumn_name hd.1 hd.2 c hc
        have hnames := buildColumns_names rest cs hcs
        simp only [List.map_cons, List.nodup_cons] at hnodup
        intro kv hkv
        simp only [List.mem_cons] at hkv
        rcases hkv with heq | hkv
        · rw [heq]
          have hnotin : hd.1 ∉ cs.map (·.name) := by
            rw [hnames]; exact hnodup.1
          have hnone : (cs.reverse.find? fun c' => c'.name == hd.1) = Option.none := by
            rw [List.find?_eq_none]
            intro c' hc'
            have hmem : c'.name ∈ cs.map (·.name) :=
              List.mem_map_of_mem _ (List.mem_reverse.mp hc')
            simp only [beq_iff_eq]
            intro heq'
            exact hnotin (heq' ▸ hmem)
          simp only [List.reverse_cons, List.find?_append, hnone, Option.none_orElse]
          simp [List.find?, hcname, hc]
        · have hne : kv.1 ≠ hd.1 := by
            intro heq
            exact hnodup.1 (heq ▸ List.mem_map_of_mem Prod.fst hkv)
          have hbeq : (c.name == kv.1) = false := by
            rw [hcname]
            exact beq_eq_false_iff_ne.mpr (Ne.symm hne)
          have hsingle : (List.find? (fun c' => c'.name == kv.1) [c]) = Option.none := by
            simp [List.find?, hbeq]
          have hih := ih cs hnodup.2 hcs kv hkv
          simp only [List.reverse_cons, List.find?_append, hsingle]
          rw [← hih]
          cases (cs.reverse.find? fun c' => c'.name == kv.1) <;> rfl

/-- C8, amended: column names are unique when the schema is built from
a name→type mapping (whose keys are unique), and there `get_column`
returns exactly the column constructed for that key; a schema built
from a list of `Column` objects keeps duplicate names as given, with
`get_column` resolving to the last column of that name. -/
theorem C8_amended (m : List (String × DtypeSpec)) (name : String) (strict : Bool)
    (s : Schema) (hnodup : (m.map Prod.fst).Nodup)
    (hs : Schema.ofDict m name strict = some s) :
    s.get_column_names.Nodup ∧ ∀ kv ∈ m, s.get_column kv.1 = mkColumn kv.1 kv.2 := by
  unfold Schema.ofDict at hs
  cases hb : buildColumns m with
  | none => rw [hb] at hs; cases hs
  | some cols =>
    rw [hb] at hs
    cases hs
    constructor
    · show (cols.map (·.name)).Nodup
      rw [buildColumns_names m cols hb]
      exact hnodup
    · exact find?_reverse_buildColumns m cols hnodup hb

/-- C8, witness: the amended theorem applied to a concrete two-column
mapping. -/
theorem C8_amended_witness :
    ({ name := "s", strict := true,
       columns := [{ name := "n", dtype := DataType.STRING },
                   { name := "age", dtype := DataType.INTEGER }] } : Schema).get_column_names.Nodup
    ∧ ({ name := "s", strict := true,
         columns := [{ name := "n", dtype := DataType.STRING },
                     { name := "age", dtype := DataType.INTEGER }] } : Schema).get_column "age"
      = some { name := "age", dtype := DataType.INTEGER } := by
  have h := C8_amended
    [("n", DtypeSpec.alias "string"), ("age", DtypeSpec.alias "int")] "s" true
    { name := "s", strict := true,
      columns := [{ name := "n", dtype := DataType.STRING },
                  { name := "age", dtype := DataType.INTEGER }] }
    (by decide) (by rfl)
  refine ⟨h.1, ?_⟩
  have h2 := h.2 ("age", DtypeSpec.alias "int") (by simp)
  exact h2

/-- C1: a call to `extract_structured_data_with_schema` that hits the
cache returns `Schema.convert_data` applied to the cached pre-coercion
payload, reflecting the schema object passed to *this* call, and does
not contact the upstream API. -/
theorem C1_cache_hit_coercion (ext : Externals) (cl : Client) (now : Nat)
    (content prompt : String) (schema : Schema) (respText : Option String)
    (c : APICache) (cached : PyVal)
    (huse : cl.use_cache = true) (hc : cl.cache = some c)
    (hhit : (c.get now content prompt cl.model
        (some (schema.get_column_names ++ ["__schema:" ++ schema.name]))).1 = cached)
    (hne : cached ≠ PyVal.none) :
    extract_structured_data_with_schema ext cl now content prompt schema respText
      = (schema.convert_data ext cached).map fun r =>
          ({ result := r,
             cache := some (c.get now content prompt cl.model
               (some (schema.get_column_names ++ ["__schema:" ++ schema.name]))).2,
             apiCalled := false } : ExtractOutcome) := by
  obtain ⟨model, use_cache, cache⟩ := cl
  dsimp only at huse hc hhit ⊢
  subst huse
  subst hc
  unfold extract_structured_data_with_schema
  dsimp only
  rw [hhit]
  cases cached <;> first
    | exact absurd rfl hne
    | rfl

/-- C1, witness: the end-to-end scenario of the spec — a cached raw
payload maps `"age"` to `["30"]` (strings), the schema declares `age`
INTEGER, and the cache-hit read returns `age = [30]` as an integer,
without an API call. -/
theorem C1_cache_hit_coercion_witness :
    extract_structured_data_with_schema noExternals
        ⟨"m", true,
          some ⟨86400, true,
            [(⟨"c", "p", "m", some ["name", "age", "__schema:extracted_data"]⟩,
              CacheRecord.parsed 0
                (PyVal.dict [("name", PyVal.list [PyVal.str "Alice"]),
                  ("age", PyVal.list [PyVal.str "30"])]))]⟩⟩
        5 "c" "p"
        ⟨"extracted_data", true,
          [{ name := "name", dtype := DataType.STRING },
           { name := "age", dtype := DataType.INTEGER }]⟩
        Option.none
      = Except.ok
          ⟨PyVal.dict [("name", PyVal.list [PyVal.str "Alice"]),
              ("age", PyVal.list [PyVal.int 30])],
            some ⟨86400, true,
              [(⟨"c", "p", "m", some ["name", "age", "__schema:extracted_data"]⟩,
                CacheRecord.parsed 0
                  (PyVal.dict [("name", PyVal.list [PyVal.str "Alice"]),
                    ("age", PyVal.list [PyVal.str "30"])]))]⟩,
            false⟩ := by
  have h := C1_cache_hit_coercion noExternals
    ⟨"m", true,
      some ⟨86400, true,
        [(⟨"c", "p", "m", some ["name", "age", "__schema:extracted_data"]⟩,
          CacheRecord.parsed 0
            (PyVal.dict [("name", PyVal.list [PyVal.str "Alice"]),
              ("age", PyVal.list [PyVal.str "30"])]))]⟩⟩
    5 "c" "p"
    ⟨"extracted_data", true,
      [{ name := "name", dtype := DataType.STRING },
       { name := "age", dtype := DataType.INTEGER }]⟩
    Option.none
    ⟨86400, true,
      [(⟨"c", "p", "m", some ["name", "age", "__schema:extracted_data"]⟩,
        CacheRecord.parsed 0
          (PyVal.dict [("name", PyVal.list [PyVal.str "Alice"]),
            ("age", PyVal.list [PyVal.str "30"])]))]⟩
    (PyVal.dict [("name", PyVal.list [PyVal.str "Alice"]),
      ("age", PyVal.list [PyVal.str "30"])])
    rfl rfl (by rfl) (fun hcontra => PyVal.noConfusion hcontra)
  exact h.trans (by rfl)

/-- C10: when the completion fails to parse as JSON,
`extract_structured_data` returns the fallback `{"content":
[response_text]}` *and* writes it to the cache under the same
fingerprint, so an identical call within the TTL returns the fallback
from the cache without contacting the upstream API. -/
theorem C10_fallback_cached (cl : Client) (c : APICache) (t1 t2 : Nat)
    (content prompt : String) (columns : Option (List String)) (text : String)
    (huse : cl.use_cache = true) (hc : cl.cache = some c) (hen : c.enabled = true)
    (hmiss : lookupRecord c.store ⟨content, prompt, cl.model, columns⟩ = Option.none)
    (hparse : PyJson.loads (extractJsonStr text) = Option.none)
    (hfresh : t2 - t1 ≤ c.ttl) :
    (extract_structured_data cl t1 content prompt columns (some text)).result
      = fallbackResult text
    ∧ (extract_structured_data cl t1 content prompt columns (some text)).apiCalled = true
    ∧ ∀ respText2,
        (extract_structured_data
            { cl with cache :=
                (extract_structured_data cl t1 content prompt columns (some text)).cache }
            t2 content prompt columns respText2).result = fallbackResult text
        ∧ (extract_structured_data
            { cl with cache :=
                (extract_structured_data cl t1 content prompt columns (some text)).cache }
            t2 content prompt columns respText2).apiCalled = false := by
  obtain ⟨model, use_cache, cache⟩ := cl
  dsimp only at huse hc hmiss ⊢
  subst huse
  subst hc
  have hget1 : c.get t1 content prompt model columns = (PyVal.none, c) := by
    simp [APICache.get, hen, hmiss]
  have h1 : extract_structured_data ⟨model, true, some c⟩ t1 content prompt columns
        (some text)
      = ⟨fallbackResult text,
         some (c.set t1 content prompt model (fallbackResult text) columns), true⟩ := by
    simp [extract_structured_data, hget1, extractMissPath, hparse, maybeSet]
  have hget2 : (c.set t1 content prompt model (fallbackResult text) columns).get
        t2 content prompt model columns
      = (fallbackResult text,
         c.set t1 content prompt model (fallbackResult text) columns) := by
    simp [APICache.set, APICache.get, hen, lookupRecord_writeRecord,
      Nat.not_lt.mpr hfresh]
  refine ⟨by rw [h1], by rw [h1], fun respText2 => ?_⟩
  rw [h1]
  dsimp only
  refine ⟨?_, ?_⟩ <;>
  · simp only [extract_structured_data]
    rw [hget2]
    rfl

/-- C10, witness at a concrete client, key and non-JSON completion. -/
theorem C10_fallback_cached_witness :
    (extract_structured_data
        { model := "m", use_cache := true,
          cache := some { ttl := 100, enabled := true, store := [] } }
        0 "c" "p" Option.none (some "not json")).result = fallbackResult "not json"
    ∧ (extract_structured_data
        { model := "m", use_cache := true,
          cache := (extract_structured_data
            { model := "m", use_cache := true,
              cache := some { ttl := 100, enabled := true, store := [] } }
            0 "c" "p" Option.none (some "not json")).cache }
        5 "c" "p" Option.none Option.none).result = fallbackResult "not json"
    ∧ (extract_structured_data
        { model := "m", use_cache := true,
          cache := (extract_structured_data
            { model := "m", use_cache := true,
              cache := some { ttl := 100, enabled := true, store := [] } }
            0 "c" "p" Option.none (some "not json")).cache }
        5 "c" "p" Option.none Option.none).apiCalled = false := by
  have h := C10_fallback_cached
    { model := "m", use_cache := true,
      cache := some { ttl := 100, enabled := true, store := [] } }
    { ttl := 100, enabled := true, store := [] }
    0 5 "c" "p" Option.none "not json" rfl rfl rfl rfl (by rfl) (by decide)
  exact ⟨h.1, (h.2.2 Option.none).1, (h.2.2 Option.none).2⟩



theorem le_foldl_max_init (l : List Nat) : ∀ a, a ≤ l.foldl max a := by
  induction l with
  | nil => intro a; exact Nat.le_refl a
  | cons b tl ih => intro a; exact Nat.le_trans (Nat.le_max_left a b) (ih (max a b))

theorem mem_le_foldl_max (l : List Nat) : ∀ a x, x ∈ l → x ≤ l.foldl max a := by
  induction l with
  | nil => intro a x h; cases h
  | cons b tl ih =>
    intro a x h
    simp only [List.mem_cons] at h
    rcases h with rfl | h
    · exact Nat.le_trans (Nat.le_max_right a x) (le_foldl_max_init tl (max a x))
    · exact ih (max a b) x h

theorem le_pyMaxDefault (l : List Nat) (d x : Nat) (hx : x ∈ l) :
    x ≤ pyMaxDefault l d := by
  cases l with
  | nil => cases hx
  | cons a tl =>
    simp only [List.mem_cons] at hx
    rcases hx with rfl | hx
    · exact le_foldl_max_init tl x
    · exact mem_le_foldl_max tl a x hx

theorem normalizePairs_values (kvs : List (String × PyVal)) :
    ∀ kv ∈ normalizePairs kvs, ∃ xs, kv.2 = PyVal.list xs
      ∧ xs.length = pyMaxDefault (kvs.map fun kv => pyLenOrOne kv.2) 1 := by
  intro kv hkv
  simp only [normalizePairs, List.mem_map] at hkv
  obtain ⟨⟨k, v⟩, hmem, heq⟩ := hkv
  have hle : pyLenOrOne v ≤ pyMaxDefault (kvs.map fun kv => pyLenOrOne kv.2) 1 := by
    have : pyLenOrOne (k, v).2 ∈ kvs.map fun kv => pyLenOrOne kv.2 :=
      List.mem_map_of_mem _ hmem
    exact le_pyMaxDefault _ 1 _ this
  subst heq
  cases v
  case list xs =>
    have hle' : xs.length ≤ pyMaxDefault (kvs.map fun kv => pyLenOrOne kv.2) 1 := hle
    clear hle
    dsimp only
    by_cases hlt : xs.length < pyMaxDefault (kvs.map fun kv => pyLenOrOne kv.2) 1
    · rw [if_pos hlt]
      refine ⟨_, rfl, ?_⟩
      rw [List.length_append, List.length_replicate]
      omega
    · rw [if_neg hlt]
      exact ⟨xs, rfl, by omega⟩
  all_goals exact ⟨_, rfl, List.length_replicate _ _⟩


theorem isTableB_of_allEq (kvs' : List (String × PyVal)) (L : Nat)
    (h : ∀ kv ∈ kvs', ∃ xs, kv.2 = PyVal.list xs ∧ xs.length = L) :
    isTableB (PyVal.dict kvs') = true := by
  cases kvs' with
  | nil => rfl
  | cons hd tl =>
    obtain ⟨xs0, hxs0, hlen0⟩ := h hd (List.mem_cons_self _ _)
    rcases hd with ⟨k0, v0⟩
    dsimp only at hxs0
    subst hxs0
    simp only [isTableB, List.all_eq_true]
    intro kv hkv
    obtain ⟨ys, hys, hleny⟩ := h kv (List.mem_cons_of_mem _ hkv)
    rcases kv with ⟨k, v⟩
    dsimp only at hys
    subst hys
    simp [hleny, hlen0]

theorem extractMissPath_result (cl : Client) (now : Nat) (content prompt : String)
    (columns : Option (List String)) (respText : Option String) (st : Option APICache) :
    (extractMissPath cl now content prompt columns respText st).result
      = match respText with
        | Option.none => noResponseResult
        | some text =>
          match PyJson.loads (extractJsonStr text) with
          | some data => normalize_data data
          | Option.none => fallbackResult text := by
  cases respText with
  | none => rfl
  | some text =>
    dsimp only [extractMissPath]
    cases PyJson.loads (extractJsonStr text) <;> rfl

theorem extract_result_on_miss (cl : Client) (now : Nat) (content prompt : String)
    (columns : Option (List String)) (respText : Option String)
    (hmiss : ∀ c, cl.cache = some c →
      (c.get now content prompt cl.model columns).1 = PyVal.none) :
    (extract_structured_data cl now content prompt columns respText).result
      = (extractMissPath cl now content prompt columns respText Option.none).result := by
  obtain ⟨model, use_cache, cache⟩ := cl
  cases use_cache with
  | false =>
    cases cache with
    | none => rfl
    | some c =>
      simp only [extract_structured_data]
      rw [extractMissPath_result, extractMissPath_result]
  | true =>
    cases cache with
    | none => rfl
    | some c =>
      have h := hmiss c rfl
      dsimp only at h
      simp only [extract_structured_data]
      rw [h]
      rw [extractMissPath_result, extractMissPath_result]

/-- C3, counterexample: on the completion text `"[1, 2, 3]"` — valid
JSON whose top level is not an object — `extract_structured_data`
returns the parsed *list* unchanged, not a mapping, so the result is
not a rectangular table.  This refutes the claim that the result is a
rectangular mapping for every completion text. -/
theorem C3_counterexample :
    (extract_structured_data ⟨"m", false, Option.none⟩ 0 "c" "p" Option.none
        (some "[1, 2, 3]")).result
      = PyVal.list [PyVal.int 1, PyVal.int 2, PyVal.int 3]
    ∧ isTableB (extract_structured_data ⟨"m", false, Option.none⟩ 0 "c" "p" Option.none
        (some "[1, 2, 3]")).result = false :=
  ⟨rfl, rfl⟩

/-- C3, amended: on a cache miss, `extract_structured_data` returns a
rectangular mapping (every value a list, all of identical length)
whenever the completion parses to a JSON object, fails to parse, or is
absent; a completion parsing to a non-object JSON value is returned
as-is, unnormalized. -/
theorem C3_amended (cl : Client) (now : Nat) (content prompt : String)
    (columns : Option (List String)) (respText : Option String)
    (hmiss : ∀ c, cl.cache = some c →
      (c.get now content prompt cl.model columns).1 = PyVal.none) :
    (respText = Option.none →
      (extract_structured_data cl now content prompt columns respText).result
        = noResponseResult
      ∧ isTableB noResponseResult = true)
    ∧ (∀ text, respText = some text →
        (PyJson.loads (extractJsonStr text) = Option.none →
          (extract_structured_data cl now content prompt columns respText).result
            = fallbackResult text
          ∧ isTableB (fallbackResult text) = true)
        ∧ (∀ kvs, PyJson.loads (extractJsonStr text) = some (PyVal.dict kvs) →
            isTableB (extract_structured_data cl now content prompt columns
              respText).result = true)
        ∧ (∀ v, PyJson.loads (extractJsonStr text) = some v →
            (∀ kvs, v ≠ PyVal.dict kvs) →
            (extract_structured_data cl now content prompt columns respText).result
              = v)) := by
  have hres := extract_result_on_miss cl now content prompt columns respText hmiss
  constructor
  · rintro rfl
    rw [hres, extractMissPath_result]
    exact ⟨rfl, rfl⟩
  · intro text htext
    subst htext
    refine ⟨fun hparse => ?_, fun kvs hparse => ?_, fun v hparse hnd => ?_⟩
    · rw [hres, extractMissPath_result]
      dsimp only
      rw [hparse]
      exact ⟨rfl, rfl⟩
    · rw [hres, extractMissPath_result]
      dsimp only
      rw [hparse]
      show isTableB (PyVal.dict (normalizePairs kvs)) = true
      exact isTableB_of_allEq _ _ (normalizePairs_values kvs)
    · rw [hres, extractMissPath_result]
      dsimp only
      rw [hparse]
      show normalize_data v = v
      cases v <;> first
        | rfl
        | (rename_i kvs; exact absurd rfl (hnd kvs))

/-- C3, witness: the amended theorem at a concrete dict-shaped
completion with ragged columns — the result is a rectangular table. -/
theorem C3_amended_witness :
    isTableB (extract_structured_data ⟨"m", false, Option.none⟩ 0 "c" "p" Option.none
      (some "\x7b\"a\": [1, 2], \"b\": 5\x7d")).result = true :=
  ((C3_amended ⟨"m", false, Option.none⟩ 0 "c" "p" Option.none
      (some "\x7b\"a\": [1, 2], \"b\": 5\x7d")
      (fun _ hc => Option.noConfusion hc)).2
    "\x7b\"a\": [1, 2], \"b\": 5\x7d" rfl).2.1
    [("a", PyVal.list [PyVal.int 1, PyVal.int 2]), ("b", PyVal.int 5)] rfl

theorem find_neg_one_or_nonneg (s pat : String) (st : Nat) :
    PyStr.find s pat st = -1 ∨ 0 ≤ PyStr.find s pat st := by
  unfold PyStr.find
  cases PyStr.findL pat.data (s.data.drop st) with
  | none => exact Or.inl rfl
  | some i => exact Or.inr (Int.natCast_nonneg _)

theorem claimedPayloadAmended_eq_extractJsonStr (text : String) :
    claimedPayloadAmended text = extractJsonStr text := by
  by_cases h1 : 0 ≤ PyStr.find text "```json" 0
  · by_cases h2 : 0 ≤ PyStr.find text "```" ((PyStr.find text "```json" 0).toNat + 7)
    · simp [claimedPayloadAmended, extractJsonStr, PyStr.contains, ge_iff_le, h1, h2]
    · rcases find_neg_one_or_nonneg text "```" ((PyStr.find text "```json" 0).toNat + 7)
        with he | he
      · simp [claimedPayloadAmended, extractJsonStr, PyStr.contains, ge_iff_le,
          h1, h2, he]
      · exact absurd he h2
  · by_cases h3 : 0 ≤ PyStr.find text "```" 0
    · by_cases h4 : 0 ≤ PyStr.find text "```" ((PyStr.find text "```" 0).toNat + 3)
      · simp [claimedPayloadAmended, extractJsonStr, PyStr.contains, ge_iff_le,
          h1, h3, h4]
      · rcases find_neg_one_or_nonneg text "```" ((PyStr.find text "```" 0).toNat + 3)
          with he | he
        · simp [claimedPayloadAmended, extractJsonStr, PyStr.contains, ge_iff_le,
            h1, h3, h4, he]
        · exact absurd he h4
    · simp [claimedPayloadAmended, extractJsonStr, PyStr.contains, ge_iff_le, h1, h3]

/-- C7, counterexample: on the input `"```json abc"` (a quoted JSON
string containing a fence marker but no closing fence), the claim's
payload selection falls back to the whole trimmed text, which parses
to the JSON string `` ```json abc ``; the code instead slices from
after the opening marker to `[start:-1]` (Python `find` returned
`-1`), fails to parse `"abc"`, and returns the fallback mapping.  The
two results differ, refuting the claim as stated. -/
theorem C7_counterexample :
    parse_json_from_response "\"```json abc\""
      = PyVal.dict [("content", PyVal.list [PyVal.str "\"```json abc\""])]
    ∧ (match PyJson.loads (claimedPayload "\"```json abc\"") with
       | some v => v
       | Option.none => PyVal.dict [("content",
           PyVal.list [PyVal.str "\"```json abc\""])])
      = PyVal.str "```json abc"
    ∧ PyVal.dict [("content", PyVal.list [PyVal.str "\"```json abc\""])]
      ≠ PyVal.str "```json abc" :=
  ⟨rfl, rfl, fun h => PyVal.noConfusion h⟩

/-- C7, amended: the Response Parser selects the payload between a
` ```json ` fence (or, failing that, a bare ` ``` ` fence) and the
next ` ``` ` fence; when the opening fence has no subsequent closing
fence the payload is the text from just after the opening marker up to
but excluding the final character, stripped; with no fence, the whole
trimmed text.  The payload is parsed as JSON, and on parse failure of
any kind the parser does not raise and returns
`{"content": [raw_text]}` preserving the full original text. -/
theorem C7_amended (text : String) :
    parse_json_from_response text
      = match PyJson.loads (claimedPayloadAmended text) with
        | some v => v
        | Option.none => PyVal.dict [("content", PyVal.list [PyVal.str text])] := by
  rw [claimedPayloadAmended_eq_extractJsonStr]
  rfl

theorem retryLoop_attempts_le (model : String) (maxR d : Nat)
    (outs : Nat → AttemptOutcome) :
    ∀ (rem attempt : Nat) (lastErr : Option String),
      (retryLoop model maxR d outs attempt rem lastErr).attempts ≤ rem := by
  intro rem
  induction rem with
  | zero => intro attempt lastErr; exact Nat.le_refl 0
  | succ rem ih =>
    intro attempt lastErr
    simp only [retryLoop]
    cases outs attempt with
    | success r => exact Nat.succ_le_succ (Nat.zero_le rem)
    | httpError st tru msg =>
      dsimp only
      split_ifs <;>
        first
          | exact Nat.succ_le_succ (Nat.zero_le rem)
          | exact Nat.succ_le_succ (ih _ _)
    | requestError msg =>
      exact Nat.succ_le_succ (ih _ _)

theorem retryLoop_transient_step (model : String) (maxR d : Nat)
    (outs : Nat → AttemptOutcome) (attempt rem : Nat) (lastErr : Option String)
    (ht : isTransient (outs attempt) = true) :
    retryLoop model maxR d outs attempt (rem + 1) lastErr
      = ⟨(retryLoop model maxR d outs (attempt + 1) rem
            (some (outcomeMsg (outs attempt)))).result,
         (if attempt < maxR - 1 then [d * (attempt + 1)] else [])
           ++ (retryLoop model maxR d outs (attempt + 1) rem
               (some (outcomeMsg (outs attempt)))).sleeps,
         (retryLoop model maxR d outs (attempt + 1) rem
           (some (outcomeMsg (outs attempt)))).attempts + 1⟩ := by
  cases ho : outs attempt with
  | success r => rw [ho] at ht; simp [isTransient] at ht
  | httpError st tru msg =>
    rw [ho] at ht
    simp only [isTransient, Bool.and_eq_true, Bool.not_eq_true'] at ht
    obtain ⟨⟨h1, h2⟩, h3⟩ := ht
    simp only [retryLoop, ho, h1, h2, h3, outcomeMsg]
    simp
  | requestError msg =>
    simp only [retryLoop, ho, outcomeMsg]

theorem retryLoop_all_transient (model : String) (maxR d : Nat)
    (outs : Nat → AttemptOutcome) :
    ∀ (rem attempt : Nat) (lastErr : Option String),
      attempt + rem = maxR →
      (∀ j, attempt ≤ j → j < maxR → isTransient (outs j) = true) →
      retryLoop model maxR d outs attempt rem lastErr
        = ⟨Except.error (PyErr.runtimeError (retryFailMsg maxR
            (if rem = 0 then lastErr else some (outcomeMsg (outs (maxR - 1)))))),
           (List.range' (attempt + 1) (rem - 1)).map (fun j => d * j),
           rem⟩ := by
  intro rem
  induction rem with
  | zero =>
    intro attempt lastErr hsum hall
    simp [retryLoop]
  | succ rem ih =>
    intro attempt lastErr hsum hall
    have ht : isTransient (outs attempt) = true :=
      hall attempt (Nat.le_refl _) (by omega)
    rw [retryLoop_transient_step model maxR d outs attempt rem lastErr ht]
    have hrec := ih (attempt + 1) (some (outcomeMsg (outs attempt)))
      (by omega) (fun j hj1 hj2 => hall j (by omega) hj2)
    rw [hrec]
    simp only [RetryRun.mk.injEq, and_true]
    constructor
    · cases rem with
      | zero =>
        have : maxR - 1 = attempt := by omega
        simp [this]
      | succ rem' => simp
    · cases rem with
      | zero =>
        have hif : ¬ attempt < maxR - 1 := by omega
        rw [if_neg hif]
        simp
      | succ rem' =>
        have hif : attempt < maxR - 1 := by omega
        rw [if_pos hif]
        have hn : rem' + 1 + 1 - 1 = (rem' + 1 - 1) + 1 := by omega
        rw [hn, List.range'_succ, List.map_cons, List.singleton_append]

/-- C9: the claim describes the intended and documented contract, but
the code's truthiness guards defeat it.  With the `requests` library's
actual semantics — `Response.__bool__` is `Response.ok`, `False` for
every status `≥ 400`, and `raise_for_status` always attaches the
response — the guards `e.response and e.response.status_code == 400`
(401, 404) of `process_content` never fire, so every HTTP 400/401/404
outcome is handled as transient.  Concretely, an upstream answering
HTTP 401 on every attempt is retried the full `max_retries = 3` times
with linear backoff sleeps `[2, 4]` and surfaces as the aggregated
`RuntimeError`, not as the immediate `ValueError("Invalid API key")`
that the claim, the function's docstring, and the `ValueError`
fallback in `extract_structured_data_with_schema` all expect. -/
theorem C9_requests_permanent_dead :
    (∀ status msg, 400 ≤ status → isTransient (requestsHttpError status msg) = true)
    ∧ process_content "m" 3 2 (fun _ => requestsHttpError 401 "401 Client Error")
      = ⟨Except.error (PyErr.runtimeError
          "Error communicating with OpenRouter API after 3 attempts: 401 Client Error"),
         [2, 4], 3⟩ := by
  constructor
  · intro status msg h
    have hlt : ¬ status < 400 := by omega
    simp [requestsHttpError, isTransient, hlt]
  · rfl

/-- C9, witness: the dead-branch statement applied at the concrete
status 401. -/
theorem C9_requests_permanent_dead_witness :
    isTransient (requestsHttpError 401 "401 Client Error") = true :=
  C9_requests_permanent_dead.1 401 "401 Client Error" (by omega)

/-! ## Sanity checks of the embedding on concrete values -/

theorem loads_sanity_object :
    PyJson.loads "\x7b\"a\": [1]\x7d" = some (PyVal.dict [("a", PyVal.list [PyVal.int 1])]) := rfl

theorem loads_sanity_reject : PyJson.loads "not json at all" = Option.none := rfl

theorem loads_sanity_float : PyJson.loads "-12.5e2" = some (PyVal.float (-125) 1) := rfl

theorem loads_sanity_dup_keys :
    PyJson.loads "\x7b\"a\": 1, \"a\": 2\x7d" = some (PyVal.dict [("a", PyVal.int 2)]) := rfl

theorem loads_sanity_leading_zero : PyJson.loads "01" = Option.none := rfl

theorem convert_value_sanity_thousands :
    Column.convert_value noExternals { name := "age", dtype := DataType.INTEGER }
      (PyVal.str "1,000") = Except.ok (PyVal.int 1000) := rfl

theorem convert_value_sanity_truncate :
    Column.convert_value noExternals { name := "age", dtype := DataType.INTEGER }
      (PyVal.str "3.14") = Except.ok (PyVal.int 3) := rfl

theorem convert_value_sanity_float_inf :
    Column.convert_value noExternals { name := "p", dtype := DataType.FLOAT }
      (PyVal.str "1e999") = Except.ok (PyVal.inf false) := rfl

theorem parse_json_sanity_fenced :
    parse_json_from_response "```json\n\x7b\"a\": [1]\x7d\n```"
      = PyVal.dict [("a", PyVal.list [PyVal.int 1])] := rfl

theorem parse_json_sanity_fallback :
    parse_json_from_response "not json at all"
      = PyVal.dict [("content", PyVal.list [PyVal.str "not json at all"])] := rfl
